import Mathlib

/-!
Shallow embedding of `src/cmd/sniff.rs` (qsv `sniff` command).

Conventions:
* Rust `usize` is modelled as `Nat`; `usize::MAX` is the explicit constant
  `usizeMax = 2^64 - 1`.  Where the Rust code can overflow/underflow or panic
  (division by zero, `usize` subtraction underflow) the model returns
  `Option`/a dedicated outcome instead of silently totalising.
* Rust `f64` values appearing here (the `--sample` flag and the line-threshold
  computation) are modelled as exact rationals `ℚ`.  Every concrete input used
  in a theorem below is exactly representable as an `f64` and the arithmetic
  on it is exact, so the rational model agrees with the IEEE semantics at
  those points; where a value may exceed 2^53 (so `f64` rounding could bite)
  theorems only state bounds that are robust to that rounding.
* External effects (HTTP download, `util::count_rows`, `Config::reader_file`,
  `fs::copy`, the `qsv_sniffer` crate's inference) are oracle inputs: `run`
  takes an `Env` describing each collaborator's outcome and we verify the
  control flow of `sniff.rs` around them, tracking resource effects
  (acquisition attempted, temp-file removals, sniffer sample mode).
-/

/-- The constant `usize::MAX`, used by `sniff.rs` as the sentinel for an unknown total
size / unknown row count. -/
def usizeMax : Nat := 2 ^ 64 - 1

/-- The value `f64::EPSILON` = 2⁻⁵², the tolerance used by `sniff.rs` for its
float-zero tests (`args.flag_sample.abs() < f64::EPSILON`).  Written with
the `Rat` constructor so the kernel can evaluate comparisons against it. -/
def f64Epsilon : ℚ := ⟨1, 2 ^ 52, by norm_num, Nat.coprime_one_left (2 ^ 52)⟩

/-- The rational 1/2, in constructor form for kernel evaluation; used for
concrete fractional sample flags in theorems below. -/
def halfQ : ℚ := ⟨1, 2, by norm_num, Nat.coprime_one_left 2⟩

/-- Rust `f64::abs`. -/
def ratAbs (q : ℚ) : ℚ :=
  if q < 0 then -q else q

/-- Rust `as usize` cast of a float: truncate toward zero and clamp to
`usize::MAX` (negative values clamp to 0). -/
def ratToUsize (q : ℚ) : Nat :=
  if q < 0 then 0 else min q.floor.toNat usizeMax

/-- Fused "multiply a usize-derived value by the float `q`, then cast the
product back with `as usize`" (e.g. `(n as f64 * q) as usize`).  For a
non-negative `q` this is ⌊n·q⌋ clamped to `usize::MAX`, computed directly on
the numerator/denominator because `Rat.mul` does not reduce in the kernel. -/
def mulFloorUsize (n : Nat) (q : ℚ) : Nat :=
  if q < 0 then 0
  else min (Int.toNat (Int.ofNat n * q.num / Int.ofNat q.den)) usizeMax

/-- Rust `f64::round` (half away from zero) followed by `as usize`, as used
for `args.flag_sample.round() as usize`; only ever applied to samples > 1,
where rounding half away from zero is ⌊q + 1/2⌋, computed on the
numerator/denominator. -/
def rustRoundUsize (q : ℚ) : Nat :=
  if q < 0 then 0
  else min (Int.toNat ((2 * q.num + Int.ofNat q.den) / (2 * Int.ofNat q.den)))
    usizeMax

/-- The fields of `qsv_sniffer::metadata::Metadata` consumed by `sniff.rs`
(`metadata.dialect.*`, `avg_record_len`, `num_fields`, `fields`, `types`).
The values themselves are produced by the external `qsv_sniffer` crate and
are unconstrained inputs of this model. -/
structure Metadata where
  delimiter : Char
  has_header_row : Bool
  num_preamble_rows : Nat
  quote : Option Char
  flexible : Bool
  is_utf8 : Bool
  avg_record_len : Nat
  num_fields : Nat
  fields : List String
  types : List String
deriving Repr, DecidableEq

/-- Structure `SniffFileStruct` from `sniff.rs` lines 185-193. -/
structure SniffFileStruct where
  display_path : String
  file_to_sniff : String
  tempfile_flag : Bool
  retrieved_size : Nat
  file_size : Nat
  downloaded_records : Nat
deriving Repr, DecidableEq

/-- Structure `SniffStruct` from `sniff.rs` lines 93-112 (the emitted result). -/
structure SniffStruct where
  path : String
  sniff_timestamp : String
  delimiter_char : Char
  header_row : Bool
  preamble_rows : Nat
  quote_char : String
  flexible : Bool
  is_utf8 : Bool
  retrieved_size : Nat
  file_size : Nat
  sampled_records : Nat
  estimated : Bool
  num_records : Nat
  avg_record_len : Nat
  num_fields : Nat
  fields : List String
  types : List String
deriving Repr, DecidableEq

/-- The pre-adjustment part of `rowcount` (`sniff.rs` lines 201-209): the
raw count and the `estimated` flag, before the header/preamble adjustment.
`count == usize::MAX` is the sentinel requesting estimation by
`file_size / avg_record_len`.  (When `avg_record_len = 0` the Rust division
panics; `rowcount` below maps that to `none`, so this helper's value at a
zero divisor is never used.) -/
def rowcountBase (metadata : Metadata) (sniff_file_info : SniffFileStruct)
    (count : Nat) : Nat × Bool :=
  if count = usizeMax then
    (sniff_file_info.file_size / metadata.avg_record_len, true)
  else
    (count, false)

/-- Function `rowcount` from `sniff.rs` lines 195-221.  Returns `none` where the Rust
code panics: `usize` division by zero (`avg_record_len = 0` in the
estimation branch) or `usize` subtraction underflow
(`final_rowcount -= num_preamble_rows` with debug assertions). -/
def rowcount (metadata : Metadata) (sniff_file_info : SniffFileStruct)
    (count : Nat) : Option (Nat × Bool) :=
  if count = usizeMax ∧ metadata.avg_record_len = 0 then none
  else
    let rb := rowcountBase metadata sniff_file_info count
    let adjusted := if metadata.has_header_row then rb.1 else rb.1 + 1
    if adjusted < metadata.num_preamble_rows then none
    else some (adjusted - metadata.num_preamble_rows, rb.2)

/-- The `lines_sample_size` computation of `get_file_to_sniff`
(`sniff.rs` lines 250-271).  `contentLength` is
`res.content_length()`; the code maps `None` to the `usize::MAX` sentinel
(lines 250-257) and then branches on the sample flag:
`> 1.0` → rounded row count; `|s| < f64::EPSILON` → `usize::MAX`
(download everything); otherwise → `((total_size / 100) as f64 * s) as
usize`. -/
def lineThreshold (contentLength : Option Nat) (flagSample : ℚ) : Nat :=
  let total_size := contentLength.getD usizeMax
  if 1 < flagSample then rustRoundUsize flagSample
  else if ratAbs flagSample < f64Epsilon then usizeMax
  else mulFloorUsize (total_size / 100) flagSample

/-- Number of newline bytes (`b'\n'` = 10) in a chunk — the per-chunk line
count of the download loop (`sniff.rs` line 318). -/
def countNl (bs : List Nat) : Nat :=
  bs.count 10

/-- The chunked download loop of `get_file_to_sniff` (`sniff.rs` lines
307-325): consume chunks in order, appending each consumed chunk's bytes and
adding its newline count to the running `downloaded_lines` counter `acc`;
break out of the loop as soon as the counter exceeds the threshold.
Returns (bytes written to the temp file, final `downloaded_lines`). -/
def streamLoop (thr : Nat) : List (List Nat) → Nat → List Nat × Nat
  | [], acc => ([], acc)
  | c :: rest, acc =>
    let acc2 := acc + countNl c
    if thr < acc2 then (c, acc2)
    else
      let r := streamLoop thr rest acc2
      (c ++ r.1, r.2)

/-- The raw partial download: bytes stored in the first temp file and the
`downloaded_lines` counter when the loop ends (`sniff.rs` lines 299-325). -/
def download (chunks : List (List Nat)) (thr : Nat) : List Nat × Nat :=
  streamLoop thr chunks 0

/-- The post-loop `downloaded_lines -= 1` of `sniff.rs` line 329.  `usize`
subtraction underflows when the counter is 0 (panic under debug assertions,
wrap in release); modelled as `none`. -/
def downloadedLinesDecrement (chunks : List (List Nat)) (thr : Nat) :
    Option Nat :=
  let l := (download chunks thr).2
  if l = 0 then none else some (l - 1)

/-- Split a byte sequence into its newline-terminated complete lines and the
trailing fragment after the last newline (empty when the data ends at a
newline). -/
def splitLines : List Nat → List (List Nat) × List Nat
  | [] => ([], [])
  | b :: bs =>
    let p := splitLines bs
    if b = 10 then ([] :: p.1, p.2)
    else
      match p.1 with
      | [] => ([], b :: p.2)
      | l :: rest => ((b :: l) :: rest, p.2)

/-- The records a ragged-row-tolerant reader yields from the partial
download (`sniff.rs` lines 343-350): every complete line, plus the trailing
fragment as a final (possibly truncated) record when it is nonempty.
(Line-level abstraction of CSV records, matching the byte-level newline
counting of the download loop and the spec's description.) -/
def csvRecords (bs : List Nat) : List (List Nat) :=
  let p := splitLines bs
  if p.2 = [] then p.1 else p.1 ++ [p.2]

/-- The rewrite into the second temp store (`sniff.rs` lines 351-383): write
the header record, skip its duplicate, then copy data records, breaking
before writing once `downloaded_records` reaches the line threshold — i.e.
header plus the first `thr` data records.  `none` models the reader failing
to produce a header record on an empty download. -/
def rewriteSample (bs : List Nat) (thr : Nat) : Option (List (List Nat)) :=
  match csvRecords bs with
  | [] => none
  | hdr :: data => some (hdr :: data.take thr)

/-- The `SampleSize` value handed to the external `Sniffer`
(`sniff.rs` lines 563-596): `All`, or `Records n`. -/
inductive SniffMode
  | all
  | records (n : Nat)
deriving Repr, DecidableEq

/-- Outcome of one `run` invocation: a successful `SniffStruct`, a CLI
error (non-success exit status), or a Rust panic (abort; the code after the
panicking expression, including cleanup, does not execute). -/
inductive RunOutcome
  | ok (r : SniffStruct)
  | err (e : String)
  | panicked
deriving Repr, DecidableEq

/-- Returns `true` on the non-success (error) exit. -/
def isErr : RunOutcome → Bool
  | RunOutcome.err _ => true
  | _ => false

/-- Observable resource effects of one invocation:
whether `get_file_to_sniff` was ever entered (all network/filesystem
acquisition, including temp-file creation, happens inside it), how many
times the temporary file was actually removed
(`cleanup_tempfile` with `tempfile_flag = true`, `sniff.rs` lines 452-460),
and the sample mode the sniffer was invoked with (`none` = never invoked). -/
structure Effects where
  acquisitionAttempted : Bool
  tempfileRemovals : Nat
  sniffedWith : Option SniffMode
deriving Repr, DecidableEq

/-- Removals performed by one `cleanup_tempfile` call: it removes the file
exactly when `tempfile_flag` is set. -/
def removals (tempfile_flag : Bool) : Nat :=
  if tempfile_flag then 1 else 0

/-- Outcomes of the external collaborators for one invocation (oracle):
the acquisition (`get_file_to_sniff`), `util::count_rows`,
`conf.reader_file()`, the `--save-urlsample` `fs::copy`, and the
`qsv_sniffer` inference. -/
structure Env where
  acquire : Except String SniffFileStruct
  countRows : Except String Nat
  readerOpen : Except String Unit
  copyUrlSample : Except String Unit
  sniff : Except String Metadata

/-- The invocation arguments used by the modelled control flow of `run`
(`Args`, `sniff.rs` lines 80-91; fields that only affect output formatting
or are consumed inside the oracles are omitted). -/
structure Args where
  flag_sample : ℚ
  flag_save_urlsample : Option String
deriving Repr, DecidableEq

/-- The `n_rows` selection of `run` (`sniff.rs` lines 489-513): a direct count
for a non-downloaded source, the `usize::MAX` sentinel when records were
downloaded (remote sample). -/
def resolveNRows (sfile : SniffFileStruct) (countRows : Except String Nat) :
    Except String Nat :=
  if sfile.downloaded_records = 0 then countRows else Except.ok usizeMax

/-- The percentage resolution of the sample size (`sniff.rs` lines
531-540) followed by the `sample_size as usize` cast used at lines 545 and
578: `sample_size < 1.0` multiplies by `n_rows` (fused here with the later
cast, see `mulFloorUsize`); note that the `else if` float-zero test of line
536 lives in the dead branch of the `< 1.0` test and never executes. -/
def resolvedSampleSizeUsize (flagSample : ℚ) (nRows : Nat) : Nat :=
  if flagSample < 1 then mulFloorUsize nRows flagSample
  else ratToUsize flagSample

/-- The `sample_all` flag as left by `sniff.rs` lines 531-540 (before the
remote-source override of lines 544-549): set only by the `else if`
float-zero branch, which is reachable only when `sample_size < 1.0` is
false. -/
def resolvedSampleAll (flagSample : ℚ) : Bool :=
  if flagSample < 1 then false
  else if ratAbs flagSample < f64Epsilon then true
  else false

/-- The value of `sampled_records` as set by `sniff.rs` lines 542-549: for a local file
or stdin (`downloaded_records == 0`) the resolved sample size cast to
`usize`; for a remote file the number of rows downloaded. -/
def sampledRecordsOf (args : Args) (sfile : SniffFileStruct) (nRows : Nat) :
    Nat :=
  if sfile.downloaded_records = 0 then
    resolvedSampleSizeUsize args.flag_sample nRows
  else sfile.downloaded_records

/-- The `sample_all` flag as finally used by the sniffer call: the (dead-branch)
resolution of lines 531-540 for a local source, forced `true` for a remote
source (line 547). -/
def sampleAllOf (args : Args) (sfile : SniffFileStruct) : Bool :=
  if sfile.downloaded_records = 0 then resolvedSampleAll args.flag_sample
  else true

/-- The sniffer invocation mode (`sniff.rs` lines 563-596): `All` when
`sample_all`, otherwise `Records (sample_size as usize)` raised to the
20-row floor (lines 578-582). -/
def sniffMode (sampleAll : Bool) (sniffSize : Nat) : SniffMode :=
  if sampleAll then SniffMode.all
  else SniffMode.records (if sniffSize < 20 then 20 else sniffSize)

/-- The tail of `run` from the sniffer call onward (`sniff.rs` lines
563-676): invoke the sniffer, compute `rowcount`, build the `SniffStruct`
(with `sampled_records` clamped to `num_records`, lines 630-634), run
`cleanup_tempfile` once (line 648) on both the success and the
inference-error path, and emit. -/
def runSniffPhase (env : Env) (sfile : SniffFileStruct) (nRows : Nat)
    (sampledRecords : Nat) (mode : SniffMode) : RunOutcome × Effects :=
  match env.sniff with
  | Except.error e =>
    (RunOutcome.err e, ⟨true, removals sfile.tempfile_flag, some mode⟩)
  | Except.ok md =>
    match rowcount md sfile nRows with
    | none => (RunOutcome.panicked, ⟨true, 0, some mode⟩)
    | some (numRecords, estimated) =>
      (RunOutcome.ok
        { path := sfile.display_path
          sniff_timestamp := ""
          delimiter_char := md.delimiter
          header_row := md.has_header_row
          preamble_rows := md.num_preamble_rows
          quote_char := match md.quote with
            | some c => String.mk [c]
            | none => "none"
          flexible := md.flexible
          is_utf8 := md.is_utf8
          retrieved_size := sfile.retrieved_size
          file_size := sfile.file_size
          sampled_records := if numRecords < sampledRecords then numRecords
            else sampledRecords
          estimated := estimated
          num_records := numRecords
          avg_record_len := md.avg_record_len
          num_fields := md.num_fields
          fields := md.fields
          types := md.types },
       ⟨true, removals sfile.tempfile_flag, some mode⟩)

/-- Function `run` from `sniff.rs` lines 463-676, with the external collaborators'
outcomes provided by `env`.  Mirrors the exit paths of the source:
negative sample check before any acquisition (466-478);
acquisition (482-483); `n_rows` via `resolveNRows` with `cleanup_tempfile`
on a count error (489-513); empty-file check on the raw `n_rows` with
cleanup (515-529); sample resolution (531-549); `conf.reader_file()?`
(551) and the `--save-urlsample` `fs::copy?` (559-561) — both of which
return early without cleanup on error; then the sniff phase. -/
def run (args : Args) (env : Env) : RunOutcome × Effects :=
  if args.flag_sample < 0 then
    (RunOutcome.err "Sample size must be greater than or equal to zero.",
     ⟨false, 0, none⟩)
  else
    match env.acquire with
    | Except.error e => (RunOutcome.err e, ⟨true, 0, none⟩)
    | Except.ok sfile =>
      match resolveNRows sfile env.countRows with
      | Except.error e =>
        (RunOutcome.err e, ⟨true, removals sfile.tempfile_flag, none⟩)
      | Except.ok nRows =>
        if nRows = 0 then
          (RunOutcome.err "Empty file",
           ⟨true, removals sfile.tempfile_flag, none⟩)
        else
          match env.readerOpen with
          | Except.error e => (RunOutcome.err e, ⟨true, 0, none⟩)
          | Except.ok _ =>
            match args.flag_save_urlsample with
            | some _ =>
              (match env.copyUrlSample with
               | Except.error e => (RunOutcome.err e, ⟨true, 0, none⟩)
               | Except.ok _ =>
                 runSniffPhase env sfile nRows
                   (sampledRecordsOf args sfile nRows)
                   (sniffMode (sampleAllOf args sfile)
                     (resolvedSampleSizeUsize args.flag_sample nRows)))
            | none =>
              runSniffPhase env sfile nRows
                (sampledRecordsOf args sfile nRows)
                (sniffMode (sampleAllOf args sfile)
                  (resolvedSampleSizeUsize args.flag_sample nRows))

/-- The emitted `SniffStruct` of a successful invocation, `none` on any
non-success outcome. -/
def runResult (args : Args) (env : Env) : Option SniffStruct :=
  match (run args env).1 with
  | RunOutcome.ok r => some r
  | _ => none

/-- The `num_records` field of a successful invocation's output. -/
def runNumRecords (args : Args) (env : Env) : Option Nat :=
  (runResult args env).map fun r => r.num_records

/-- The `sampled_records` field of a successful invocation's output. -/
def runSampledRecords (args : Args) (env : Env) : Option Nat :=
  (runResult args env).map fun r => r.sampled_records

/-- The `estimated` field of a successful invocation's output. -/
def runEstimated (args : Args) (env : Env) : Option Bool :=
  (runResult args env).map fun r => r.estimated

/-- The remote line-threshold rule as amended from the spec's words: a
specification strictly greater than 1 is rounded (half away from zero) and
used directly as the row count; a specification within `f64::EPSILON` of
zero makes the threshold unbounded (`usize::MAX`); any other specification
— including exactly 1 — is treated as a percentage,
threshold = (total_size / 100) · specification truncated to `usize`, where
an absent content length is replaced by the numeric sentinel `usize::MAX`,
which therefore participates in the percentage computation. -/
def lineThresholdSpec : Option Nat → ℚ → Nat
  | some total, s =>
    if 1 < s then rustRoundUsize s
    else if ratAbs s < f64Epsilon then usizeMax
    else mulFloorUsize (total / 100) s
  | none, s =>
    if 1 < s then rustRoundUsize s
    else if ratAbs s < f64Epsilon then usizeMax
    else mulFloorUsize (usizeMax / 100) s

/-- Sniffer metadata with a detected header row and 3 preamble rows. -/
def mdPre3 : Metadata :=
  ⟨',', true, 3, none, false, true, 10, 2, ["a", "b"], ["Text", "Text"]⟩

/-- Sniffer metadata with a detected header row and no preamble rows. -/
def mdPlain : Metadata :=
  ⟨',', true, 0, none, false, true, 10, 2, ["a", "b"], ["Text", "Text"]⟩

/-- Arguments of a plain invocation with the default sample flag 1000. -/
def c1CexArgs : Args := ⟨1000, none⟩

/-- Environment for the C1 counterexample: a local file whose direct row
count is 3 and whose sniffed metadata reports a header plus 3 preamble rows
(e.g. three comment lines, a header line, and no data rows), so the
adjusted record count is 3 - 3 = 0. -/
def c1CexEnv : Env :=
  ⟨Except.ok ⟨"f", "f", false, 100, 100, 0⟩, Except.ok 3, Except.ok (),
   Except.ok (), Except.ok mdPre3⟩

/-- Environment for the C1 witness: a local (stdin) temp file whose direct
row count is 0. -/
def c1WitEnv : Env :=
  ⟨Except.ok ⟨"stdin", "t", true, 0, 0, 0⟩, Except.ok 0, Except.ok (),
   Except.ok (), Except.ok mdPlain⟩

/-- Arguments with `--sample 0` (the documented "sample the whole file"
request). -/
def c2Args : Args := ⟨0, none⟩

/-- Environment for the C2 evaluation: a local file with 100 data rows. -/
def c2Env : Env :=
  ⟨Except.ok ⟨"f", "f", false, 1000, 1000, 0⟩, Except.ok 100, Except.ok (),
   Except.ok (), Except.ok mdPlain⟩

/-- A fully-downloaded remote source: every byte was retrieved
(`retrieved_size = file_size`) and 2 data records were written to the
rewritten sample. -/
def remoteFull : SniffFileStruct := ⟨"url", "t", true, 30, 30, 2⟩

/-- Arguments with `--sample 0` for the C3 counterexample (sample 0 on a
URL downloads the entire body). -/
def c3CexArgs : Args := ⟨0, none⟩

/-- Environment for the C3 counterexample: the fully-downloaded remote
source above with benign metadata (average record length 10). -/
def c3CexEnv : Env :=
  ⟨Except.ok remoteFull, Except.ok 99, Except.ok (), Except.ok (),
   Except.ok mdPlain⟩

/-- A remote source for the C3 witness: file size 100 bytes, 5 records
downloaded. -/
def c3WitInfo : SniffFileStruct := ⟨"u", "t", true, 100, 100, 5⟩

/-- Arguments for the C6 witness. -/
def c6Args : Args := ⟨1000, none⟩

/-- Environment for the C6 witness: a local file with 50 data rows. -/
def c6Env : Env :=
  ⟨Except.ok ⟨"g", "g", false, 100, 100, 0⟩, Except.ok 50, Except.ok (),
   Except.ok (), Except.ok mdPlain⟩

/-- The output `run` produces for `c6Args`/`c6Env`: the requested 1000
sample rows are clamped to the 50 available records. -/
def c6Struct : SniffStruct :=
  ⟨"g", "", ',', true, 0, "none", false, true, 100, 100, 50, false, 50, 10,
   2, ["a", "b"], ["Text", "Text"]⟩

/-- Arguments with a negative sample flag. -/
def c7Args : Args := ⟨-1, none⟩

/-- Environment for the C7 witness; every collaborator outcome is an error
so that any consultation of the environment would be visible. -/
def c7Env : Env :=
  ⟨Except.error "unused", Except.error "unused", Except.error "unused",
   Except.error "unused", Except.error "unused"⟩

/-- Arguments with `--save-urlsample` requested. -/
def c8Args : Args := ⟨1000, some "sample.csv"⟩

/-- Environment for the C8 evaluation: remote acquisition succeeded
(temporary file created), but the `--save-urlsample` copy fails. -/
def c8Env : Env :=
  ⟨Except.ok remoteFull, Except.ok 99, Except.ok (),
   Except.error "copy failed", Except.ok mdPlain⟩

/-- Environment contrasting `c8Env`: the copy succeeds and the sniffer
itself fails; this error path does run the cleanup. -/
def c8bEnv : Env :=
  ⟨Except.ok remoteFull, Except.ok 99, Except.ok (), Except.ok (),
   Except.error "sniff failed"⟩

theorem countNl_append (a b : List Nat) :
    countNl (a ++ b) = countNl a + countNl b := by
  simp [countNl, List.count_append]

theorem countNl_cons (b : Nat) (bs : List Nat) :
    countNl (b :: bs) = countNl bs + if b = 10 then 1 else 0 := by
  simp [countNl, List.count_cons, beq_iff_eq]

theorem streamLoop_snd (thr : Nat) (chunks : List (List Nat)) :
    ∀ acc, (streamLoop thr chunks acc).2 =
      acc + countNl (streamLoop thr chunks acc).1 := by
  induction chunks with
  | nil => intro acc; simp [streamLoop, countNl]
  | cons c rest ih =>
    intro acc
    simp only [streamLoop]
    by_cases h : thr < acc + countNl c
    · simp [h]
    · simp only [h, if_false, countNl_append]
      rw [ih (acc + countNl c)]
      ring

theorem download_countNl (chunks : List (List Nat)) (thr : Nat) :
    (download chunks thr).2 = countNl (download chunks thr).1 := by
  unfold download
  rw [streamLoop_snd]
  simp

theorem splitLines_fst_length (bs : List Nat) :
    (splitLines bs).1.length = countNl bs := by
  induction bs with
  | nil => simp [splitLines, countNl]
  | cons b bs ih =>
    rw [countNl_cons]
    simp only [splitLines]
    by_cases h : b = 10
    · simp [h, ih]
    · rw [if_neg h]
      cases hp : (splitLines bs).1 with
      | nil => rw [hp] at ih; simp [h, ← ih]
      | cons l rest => rw [hp] at ih; simp [h, ← ih]

theorem csvRecords_take (bs : List Nat) (n : Nat)
    (h : n ≤ (splitLines bs).1.length) :
    (csvRecords bs).take n = (splitLines bs).1.take n := by
  unfold csvRecords
  by_cases h2 : (splitLines bs).2 = []
  · rw [if_pos h2]
  · rw [if_neg h2]
    exact List.take_append_of_le_length h

theorem csvRecords_ne_nil (bs : List Nat) (h : (splitLines bs).1 ≠ []) :
    csvRecords bs ≠ [] := by
  unfold csvRecords
  by_cases h2 : (splitLines bs).2 = []
  · rw [if_pos h2]; exact h
  · rw [if_neg h2]; simp

theorem rewriteSample_eq_take (bs : List Nat) (thr : Nat)
    (hne : csvRecords bs ≠ []) :
    rewriteSample bs thr = some ((csvRecords bs).take (thr + 1)) := by
  unfold rewriteSample
  cases hr : csvRecords bs with
  | nil => exact absurd hr hne
  | cons hdr data => simp

theorem rowcount_snd (md : Metadata) (info : SniffFileStruct) (count : Nat)
    (p : Nat × Bool) (hp : rowcount md info count = some p) :
    p.2 = (rowcountBase md info count).2 := by
  unfold rowcount at hp
  simp only [] at hp
  split at hp
  · exact absurd hp (by simp)
  · split at hp
    all_goals
      split at hp
      · exact absurd hp (by simp)
      · simp only [Option.some.injEq] at hp
        rw [← hp]

theorem runSniffPhase_clamp (env : Env) (sfile : SniffFileStruct)
    (nRows sampledRecords : Nat) (mode : SniffMode) (r : SniffStruct)
    (h : (runSniffPhase env sfile nRows sampledRecords mode).1 =
      RunOutcome.ok r) :
    r.sampled_records ≤ r.num_records := by
  unfold runSniffPhase at h
  split at h
  · simp at h
  · split at h
    · simp at h
    · simp only [RunOutcome.ok.injEq] at h
      subst h
      simp only
      split <;> omega

theorem run_ok_clamp (args : Args) (env : Env) (r : SniffStruct)
    (h : (run args env).1 = RunOutcome.ok r) :
    r.sampled_records ≤ r.num_records := by
  unfold run at h
  split at h
  · simp at h
  · split at h
    · simp at h
    · split at h
      · simp at h
      · split at h
        · simp at h
        · split at h
          · simp at h
          · split at h
            · split at h
              · simp at h
              · exact runSniffPhase_clamp _ _ _ _ _ _ h
            · exact runSniffPhase_clamp _ _ _ _ _ _ h

/-- C1 (counterexample): the claim "a record count that is zero after the
header/preamble adjustment is a fatal empty-dataset error … the invocation
never emits a successful SniffResult whose num_records field is 0" is false
as stated: the code's empty check (`sniff.rs` line 516) tests the raw
`n_rows` before the header/preamble adjustment of `rowcount`, so a local
file whose 3 counted rows are all consumed as preamble rows (plus the
header) produces a successful emission with `num_records = 0`. -/
theorem c1_zero_num_records_counterexample :
    runNumRecords c1CexArgs c1CexEnv = some 0 ∧
    isErr (run c1CexArgs c1CexEnv).1 = false := by decide

/-- C1 (amended): a raw row count of 0 — before the header/preamble
adjustment — on a non-downloaded source is a fatal "Empty file" error,
raised before any further processing (the sniffer is never invoked) and
after one cleanup of the temporary file; the post-adjustment record count
is not re-checked. -/
theorem c1_empty_guard_on_raw_count (args : Args) (env : Env)
    (sfile : SniffFileStruct) (hneg : ¬ args.flag_sample < 0)
    (hacq : env.acquire = Except.ok sfile)
    (hloc : sfile.downloaded_records = 0)
    (hcnt : env.countRows = Except.ok 0) :
    (run args env).1 = RunOutcome.err "Empty file" ∧
    (run args env).2.sniffedWith = none ∧
    (run args env).2.tempfileRemovals = removals sfile.tempfile_flag := by
  have hres : resolveNRows sfile env.countRows = Except.ok 0 := by
    unfold resolveNRows
    rw [if_pos hloc, hcnt]
  unfold run
  rw [if_neg hneg, hacq]
  simp only [hres, if_pos rfl]
  exact ⟨rfl, rfl, rfl⟩

/-- Witness for C1 (amended) at a concrete stdin-backed temp file whose
direct row count is 0. -/
theorem c1_empty_guard_on_raw_count_witness :
    (run c1CexArgs c1WitEnv).1 = RunOutcome.err "Empty file" ∧
    (run c1CexArgs c1WitEnv).2.sniffedWith = none :=
  ⟨(c1_empty_guard_on_raw_count c1CexArgs c1WitEnv ⟨"stdin", "t", true, 0, 0, 0⟩
      (by decide) rfl rfl rfl).1,
   (c1_empty_guard_on_raw_count c1CexArgs c1WitEnv ⟨"stdin", "t", true, 0, 0, 0⟩
      (by decide) rfl rfl rfl).2.1⟩

/-- C2 (code bug, evaluation): with `--sample 0` on a local file of 100
data rows, `sniff.rs` lines 531-540 take the `sample_size < 1.0` percentage
branch (0 < 1), multiply 0 by `n_rows`, and never reach the `else if`
float-zero test, so sample-all mode is not triggered: the sniffer is
invoked with `Records 20` (the 20-row floor applied to 0), the emitted
`sampled_records` is 0 rather than the record count 100, and `estimated`
is `false` — contradicting the documented behaviour that a zero sample
scans the whole file with `sampled_records = record_count`. -/
theorem c2_sample_zero_bug_eval :
    runSampledRecords c2Args c2Env = some 0 ∧
    runNumRecords c2Args c2Env = some 100 ∧
    runEstimated c2Args c2Env = some false ∧
    (run c2Args c2Env).2.sniffedWith = some (SniffMode.records 20) := by
  decide

/-- C3 (counterexample): the claim "for every source … whose row count was
obtained by a direct full scan (local file, stdin, or fully-downloaded
remote), the row-count estimator returns that exact count with
estimated = false" is false for a fully-downloaded remote source: any remote
acquisition with at least one downloaded record makes `run` pass the
`usize::MAX` sentinel (`sniff.rs` lines 507-513), so the estimator
estimates (`estimated = true`, `num_records = file_size / avg_record_len =
30 / 10 = 3`) even though every byte was retrieved
(`retrieved_size = file_size`) and exactly 2 records were downloaded. -/
theorem c3_fully_downloaded_remote_counterexample :
    runEstimated c3CexArgs c3CexEnv = some true ∧
    runNumRecords c3CexArgs c3CexEnv = some 3 ∧
    remoteFull.retrieved_size = remoteFull.file_size ∧
    remoteFull.downloaded_records = 2 := by decide

/-- C3 (amended): the estimator returns the exact count with
`estimated = false` precisely when the count is not the `usize::MAX`
sentinel; when it is the sentinel (and the average record length is
positive, else the code panics) the pre-adjustment count is the integer
division `file_size / avg_record_len` with `estimated = true`; and `run`
passes the sentinel exactly for sources with a nonzero number of
downloaded records — every remote acquisition that downloaded at least one
data record, whether a prefix or the full body. -/
theorem c3_rowcount_discriminator (md : Metadata)
    (info sfile : SniffFileStruct) (count : Nat)
    (cr : Except String Nat) :
    (count ≠ usizeMax → rowcountBase md info count = (count, false) ∧
      ∀ p, rowcount md info count = some p → p.2 = false) ∧
    (count = usizeMax → 0 < md.avg_record_len →
      rowcountBase md info count =
        (info.file_size / md.avg_record_len, true) ∧
      ∀ p, rowcount md info count = some p → p.2 = true) ∧
    (sfile.downloaded_records ≠ 0 →
      resolveNRows sfile cr = Except.ok usizeMax) := by
  refine ⟨fun h => ⟨?_, ?_⟩, fun h hpos => ⟨?_, ?_⟩, fun h => ?_⟩
  · unfold rowcountBase; rw [if_neg h]
  · intro p hp
    rw [rowcount_snd md info count p hp]
    unfold rowcountBase
    rw [if_neg h]
  · unfold rowcountBase; rw [if_pos h]
  · intro p hp
    rw [rowcount_snd md info count p hp]
    unfold rowcountBase
    rw [if_pos h]
  · unfold resolveNRows; rw [if_neg h]

/-- Witness for C3 (amended) at concrete inputs: an exact local count of 5,
an estimated remote count 100 / 10 = 10, and the sentinel selection for a
source with 5 downloaded records. -/
theorem c3_rowcount_discriminator_witness :
    rowcountBase mdPlain c3WitInfo 5 = (5, false) ∧
    rowcountBase mdPlain c3WitInfo usizeMax = (10, true) ∧
    resolveNRows c3WitInfo (Except.ok 7) = Except.ok usizeMax :=
  ⟨((c3_rowcount_discriminator mdPlain c3WitInfo c3WitInfo 5
      (Except.ok 7)).1 (by decide)).1,
   ((c3_rowcount_discriminator mdPlain c3WitInfo c3WitInfo usizeMax
      (Except.ok 7)).2.1 rfl (by decide)).1,
   (c3_rowcount_discriminator mdPlain c3WitInfo c3WitInfo 5
      (Except.ok 7)).2.2 (by decide)⟩

/-- C4: whenever the streaming download stopped because the line threshold
was exceeded (the only case in which the raw partial download can end in a
row cut off mid-line), the rewritten second store — the sample handed to
the inferencer and estimator — is exactly the first `thr + 1` complete,
newline-terminated lines of the partial download: the header row plus the
first `thr` complete data rows, never the truncated trailing fragment. -/
theorem c4_rewrite_no_truncated_row (chunks : List (List Nat)) (thr : Nat)
    (h : thr < (download chunks thr).2) :
    rewriteSample (download chunks thr).1 thr =
      some (((splitLines (download chunks thr).1).1).take (thr + 1)) ∧
    (((splitLines (download chunks thr).1).1).take (thr + 1)).length =
      thr + 1 := by
  have hcnt : thr < countNl (download chunks thr).1 := by
    rw [← download_countNl]; exact h
  have hlen : thr + 1 ≤ ((splitLines (download chunks thr).1).1).length := by
    rw [splitLines_fst_length]; omega
  have hne : (splitLines (download chunks thr).1).1 ≠ [] := by
    intro hnil
    rw [hnil] at hlen
    simp at hlen
  constructor
  · rw [rewriteSample_eq_take _ _ (csvRecords_ne_nil _ hne),
        csvRecords_take _ _ hlen]
  · simp [List.length_take]
    omega

/-- Witness for C4 at a concrete stream: body "h\na\nb" (the final "b" cut
off mid-line), threshold 1; the rewritten sample is exactly the header "h"
and the single complete data row "a". -/
theorem c4_rewrite_no_truncated_row_witness :
    rewriteSample (download [[104, 10, 97, 10, 98]] 1).1 1 =
      some (((splitLines (download [[104, 10, 97, 10, 98]] 1).1).1).take
        (1 + 1)) ∧
    (((splitLines (download [[104, 10, 97, 10, 98]] 1).1).1).take
      (1 + 1)).length = 1 + 1 :=
  c4_rewrite_no_truncated_row [[104, 10, 97, 10, 98]] 1 (by decide)

/-- C5 (counterexample): the claim's translation rule is false at two
points: a specification of exactly 1 is not "used directly as the row
count" — `sniff.rs` line 260 tests `> 1.0`, so 1 falls into the percentage
branch and a known total size of 1000 yields threshold 10, not 1; and an
absent content length is not "an explicit absent value never treated as a
number" — it is replaced by the sentinel `usize::MAX` (lines 250-257),
which then enters the percentage computation exactly as the number
`usize::MAX` would (threshold ≈ (usize::MAX / 100) · 0.5 ≥ 2⁵⁰). -/
theorem c5_threshold_counterexample :
    lineThreshold (some 1000) 1 = 10 ∧
    halfQ = 1 / 2 ∧
    lineThreshold none halfQ = lineThreshold (some usizeMax) halfQ ∧
    2 ^ 50 ≤ lineThreshold none halfQ := by
  refine ⟨by decide, ?_, rfl, by decide⟩
  rw [halfQ, Rat.mk'_eq_divInt, Rat.divInt_eq_div]
  norm_num

/-- C5 (amended): the remote line threshold equals the amended rule
`lineThresholdSpec`: strictly greater than 1 → rounded and used directly;
within `f64::EPSILON` of zero → unbounded (`usize::MAX`); otherwise
(including exactly 1) → `(total_size / 100) · specification` truncated,
with an absent content length replaced by the numeric sentinel
`usize::MAX`, which participates in that computation. -/
theorem c5_threshold_amended (cl : Option Nat) (s : ℚ) :
    lineThreshold cl s = lineThresholdSpec cl s := by
  cases cl <;> rfl

/-- C6: in every successful result, `sampled_records` never exceeds
`num_records`: the clamp at `sniff.rs` lines 630-634 bounds the emitted
`sampled_records` by the (possibly estimated) record count, for every
argument vector and every collaborator outcome. -/
theorem c6_sampled_records_le_num_records (args : Args) (env : Env)
    (r : SniffStruct) (h : runResult args env = some r) :
    r.sampled_records ≤ r.num_records := by
  unfold runResult at h
  cases ho : (run args env).1 with
  | ok r2 =>
    rw [ho] at h
    simp only [Option.some.injEq] at h
    subst h
    exact run_ok_clamp args env r2 ho
  | err e => rw [ho] at h; simp at h
  | panicked => rw [ho] at h; simp at h

/-- Witness for C6 at a concrete invocation: 1000 requested sample rows
are clamped to the 50 available records. -/
theorem c6_sampled_records_le_num_records_witness :
    runResult c6Args c6Env = some c6Struct ∧
    c6Struct.sampled_records ≤ c6Struct.num_records :=
  ⟨by decide,
   c6_sampled_records_le_num_records c6Args c6Env c6Struct (by decide)⟩

/-- C7: a negative sample-size specification fails with the input error
before any acquisition attempt (`sniff.rs` lines 466-478 precede the
`get_file_to_sniff` call of line 482): the exit is non-success, the
acquisition step — the only place any network request, file open, or
temporary store creation happens — is never entered, no temporary file is
removed, and the sniffer is never invoked. -/
theorem c7_negative_sample_rejected_before_acquisition (args : Args)
    (env : Env) (h : args.flag_sample < 0) :
    isErr (run args env).1 = true ∧
    (run args env).2.acquisitionAttempted = false ∧
    (run args env).2.tempfileRemovals = 0 ∧
    (run args env).2.sniffedWith = none := by
  unfold run
  rw [if_pos h]
  exact ⟨rfl, rfl, rfl, rfl⟩

/-- Witness for C7 at the concrete sample flag -1, in an environment whose
every collaborator outcome is an error (none of which is consulted). -/
theorem c7_negative_sample_rejected_before_acquisition_witness :
    isErr (run c7Args c7Env).1 = true ∧
    (run c7Args c7Env).2.acquisitionAttempted = false ∧
    (run c7Args c7Env).2.tempfileRemovals = 0 ∧
    (run c7Args c7Env).2.sniffedWith = none :=
  c7_negative_sample_rejected_before_acquisition c7Args c7Env (by decide)

/-- C8 (code bug, evaluation): after a successful remote acquisition
(temporary file created, `tempfile_flag = true`), a failure of the
`--save-urlsample` copy (`fs::copy(..)?`, `sniff.rs` line 560) returns
early *without* running `cleanup_tempfile`, leaking the temporary file
(0 removals) — while the inference-failure path does release it exactly
once; so the temporary store is not released on every exit path after
acquisition. -/
theorem c8_cleanup_missing_on_copy_error_eval :
    isErr (run c8Args c8Env).1 = true ∧
    (run c8Args c8Env).2.tempfileRemovals = 0 ∧
    (run c8Args c8bEnv).2.tempfileRemovals = 1 ∧
    isErr (run c8Args c8bEnv).1 = true := by decide

/-- C9 (counterexample): the claim "the unconditional post-loop decrement
of the downloaded-line counter never underflows … including when the
stream ends before any newline is observed" is false: a stream consisting
of the single chunk "ab" (no newline byte) ends with the counter at 0 and
the decrement of `sniff.rs` line 329 underflows. -/
theorem c9_decrement_underflow_counterexample :
    downloadedLinesDecrement [[97, 98]] 1000 = none := by decide

/-- C9 (amended): on every path where the download loop stopped because
the line threshold was exceeded, at least one newline byte has been
counted and the decrement is safe; only when the stream ends before the
counter exceeds the threshold can the counter be 0, in which case the
decrement underflows. -/
theorem c9_decrement_safe_after_threshold_break (chunks : List (List Nat))
    (thr : Nat) (h : thr < (download chunks thr).2) :
    0 < (download chunks thr).2 ∧
    downloadedLinesDecrement chunks thr =
      some ((download chunks thr).2 - 1) := by
  constructor
  · omega
  · unfold downloadedLinesDecrement
    rw [if_neg (by omega : ¬ (download chunks thr).2 = 0)]

/-- Witness for C9 (amended) at a concrete stream of two newlines with
threshold 0: the loop breaks with the counter at 2 and the decrement
yields 1. -/
theorem c9_decrement_safe_after_threshold_break_witness :
    0 < (download [[10, 10]] 0).2 ∧
    downloadedLinesDecrement [[10, 10]] 0 =
      some ((download [[10, 10]] 0).2 - 1) :=
  c9_decrement_safe_after_threshold_break [[10, 10]] 0 (by decide)
